import Mathlib

/-!
Verification development for the `src-tauri/src/lib.rs` core of the Cerebro
desktop shell: the sidecar supervisor, line-JSON event router, command facade
and tray popover placement engine, shallowly embedded in Lean. OS effects
(process spawning, pipe writes, directory reads) are modelled by explicit
environment records recording the outcomes the OS would produce, and every
command returns a `CmdOutcome` listing its resulting guarded state, its
result, the protocol messages it wrote to the worker stdin (as parsed JSON
objects; the code serialises them one per line), and the number of worker
processes it spawned.
-/

namespace Cerebro

/-- Minimal JSON value universe, sufficient for the line protocol
(`serde_json::Value` restricted to what the router and facade touch). -/
inductive Json where
  | null : Json
  | bool (b : Bool) : Json
  | num (q : ℚ) : Json
  | str (s : String) : Json
  | obj (fields : List (String × Json)) : Json

/-- Models `v.get(key)` on a `serde_json::Value`: first field with that key
of an object, `none` otherwise. -/
def Json.get (j : Json) (key : String) : Option Json :=
  match j with
  | .obj fields => fields.lookup key
  | _ => none

/-- Models `Value::as_str`. -/
def Json.asStr : Json → Option String
  | .str s => some s
  | _ => none

/-- Models `v.get("type").and_then(|x| x.as_str()).unwrap_or("")` in the
reader loop. -/
def msgTypeOf (v : Json) : String :=
  ((v.get "type").bind Json.asStr).getD ""

/-- A line read from the worker stdout after the JSON parse attempt:
`none` models a line that is not valid JSON. -/
abbrev ParsedLine := Option Json

/-- An event emitted on the host event bus: channel name and payload. -/
structure EmittedEvent where
  channel : String
  payload : Json

/-- The synthetic event the reader loop emits for a line that fails to parse
as JSON. -/
def invalidJsonEvent : EmittedEvent :=
  ⟨"cerebro:chat_error",
    .obj [("generation_id", .null), ("message", .str "Invalid runner JSON")]⟩

/-- Channel the router republishes a given inbound `type` tag on, `none` for
control or unrecognised tags (`ready`, `shutdown`, anything else). -/
def routeChannel (t : String) : Option String :=
  if t = "chat_token" then some "cerebro:chat_token"
  else if t = "done" then some "cerebro:chat_done"
  else if t = "error" then some "cerebro:chat_error"
  else if t = "download_started" then some "cerebro:model_download_started"
  else if t = "download_progress" then some "cerebro:model_download_progress"
  else if t = "download_done" then some "cerebro:model_download_done"
  else if t = "download_error" then some "cerebro:model_download_error"
  else none

/-- One iteration of the reader loop body: the event (if any) emitted for one
line of worker output. -/
def routeLine (line : ParsedLine) : Option EmittedEvent :=
  match line with
  | none => some invalidJsonEvent
  | some v =>
    match routeChannel (msgTypeOf v) with
    | some ch => some ⟨ch, v⟩
    | none => none

/-- The reader loop over a finite prefix of the worker output stream: each
line is routed in order; the loop never stops early on a bad line. -/
def readerLoop (lines : List ParsedLine) : List EmittedEvent :=
  lines.filterMap routeLine

/-- Opaque handle to a spawned worker process (`std::process::Child`); the
tag distinguishes distinct spawns. -/
structure ChildHandle where
  pid : Nat
deriving DecidableEq

/-- Opaque handle to the write end of the worker stdin (`ChildStdin`). -/
structure StdinHandle where
  pid : Nat
deriving DecidableEq

/-- The guarded supervisor state (`PythonRuntimeInner`): the pair protected
by the mutex. -/
structure PythonRuntimeInner where
  child : Option ChildHandle
  stdin : Option StdinHandle
deriving DecidableEq

/-- The synchronous error values the facade commands can return (the code
returns descriptive `String`s; this names the distinct error sites). -/
inductive CmdError where
  | resourceDirFailed
  | runnerNotFound
  | spawnFailed
  | appDataDirFailed
  | createModelsDirFailed
  | modelNotLocal (expectedDir : String)
  | notRunning
  | writeFailed (what : String)
deriving DecidableEq

/-- Everything one facade command produces: the guarded state it leaves
behind, its synchronous result, the protocol messages it wrote to the worker
stdin (in order, as the JSON objects the code serialises one per line), and
how many worker processes it spawned. -/
structure CmdOutcome (α : Type) where
  state : PythonRuntimeInner
  result : Except CmdError α
  writes : List Json
  spawns : Nat

/-- OS outcomes consumed by `ensure_python_runtime`: whether the runner
script path resolves (dev path or resource dir), whether the resolved script
exists, and whether `python3` launches. -/
structure EnsureEnv where
  resolvedScript : Option String
  scriptExists : Bool
  spawnOk : Bool

/-- Models `ensure_python_runtime`: under the guarded region, return at once
if both handles are present; otherwise resolve the runner script, spawn
`python3` with piped stdin/stdout (fresh handles tagged `pid`), and store
both handles. The reader thread it starts is modelled by `readerLoop`. -/
def ensure_python_runtime (env : EnsureEnv) (pid : Nat) (s : PythonRuntimeInner) :
    CmdOutcome Unit :=
  if s.child.isSome ∧ s.stdin.isSome then
    ⟨s, .ok (), [], 0⟩
  else
    match env.resolvedScript with
    | none => ⟨s, .error .resourceDirFailed, [], 0⟩
    | some _ =>
      if env.scriptExists then
        if env.spawnOk then
          ⟨⟨some ⟨pid⟩, some ⟨pid⟩⟩, .ok (), [], 1⟩
        else
          ⟨s, .error .spawnFailed, [], 0⟩
      else
        ⟨s, .error .runnerNotFound, [], 0⟩

/-- OS outcomes of the two best-effort sub-steps of `python_runtime_stop`;
the code ignores both results (`let _ = ...`). -/
structure StopEnv where
  writeOk : Bool
  killOk : Bool

/-- The shutdown line `python_runtime_stop` writes to the worker stdin. -/
def shutdownMsg : Json := .obj [("type", .str "shutdown")]

/-- Models `python_runtime_stop`: take the stdin handle (if any) and write a
shutdown line, take the child handle (if any) and kill it; both sub-step
errors are swallowed, both fields end cleared, and the command returns ok. -/
def python_runtime_stop (_env : StopEnv) (s : PythonRuntimeInner) : CmdOutcome Unit :=
  let writes := match s.stdin with
    | some _ => [shutdownMsg]
    | none => []
  ⟨⟨none, none⟩, .ok (), writes, 0⟩

/-- Models `sanitize_dir_component`'s per-character test: ASCII alphanumeric
or one of `-`, `_`, `.`. -/
def allowedDirChar (c : Char) : Bool :=
  c.isAlphanum || c = '-' || c = '_' || c = '.'

/-- Models `sanitize_dir_component`: keep allowed characters, replace every
other character with `_`; an empty result falls back to `"model"`. -/
def sanitize_dir_component (input : String) : String :=
  let out := String.mk (input.data.map (fun ch => if allowedDirChar ch then ch else '_'))
  if out.isEmpty then "model" else out

/-- Models `compute_model_local_dir`: `app_data_dir` resolution and the
`models` directory creation can fail (environment flags); on success the
local directory is `base/models/<sanitized repo id>` (string form of the
joined `PathBuf`). -/
def compute_model_local_dir (appDataDir : Option String) (createDirOk : Bool)
    (repo_id : String) : Except CmdError String :=
  match appDataDir with
  | none => .error .appDataDirFailed
  | some base =>
    if createDirOk then
      .ok (base ++ "/models/" ++ sanitize_dir_component repo_id)
    else
      .error .createModelsDirFailed

/-- Payload of the `chat_generate` command. -/
structure ChatGeneratePayload where
  model : String
  prompt : String
  max_new_tokens : Option Nat
  temperature : Option ℚ

/-- Successful `chat_generate` response. -/
structure ChatGenerateStarted where
  generation_id : String
deriving DecidableEq

/-- Environment of one `chat_generate` call: the spawn environment, the
filesystem outcomes for the model directory (`dirEntries = none` models a
`read_dir` failure, i.e. the directory does not exist), the id
`generate_id()` returns, and the stdin write outcome. -/
structure GenerateEnv where
  ensureEnv : EnsureEnv
  pid : Nat
  appDataDir : Option String
  createDirOk : Bool
  dirEntries : Option (List String)
  generationId : String
  writeOk : Bool

/-- The part of `chat_generate` after the `ensure_python_runtime` call, as a
function of that call's outcome `e`: resolve the model local directory,
require it to contain at least one entry, then build the `generate` message
(defaults 256 tokens, temperature 0.2) and write it to the worker stdin,
returning the fresh generation id. -/
def chat_generate_rest (env : GenerateEnv) (payload : ChatGeneratePayload)
    (e : CmdOutcome Unit) : CmdOutcome ChatGenerateStarted :=
  match e.result with
  | .error err => ⟨e.state, .error err, [], e.spawns⟩
  | .ok _ =>
    match compute_model_local_dir env.appDataDir env.createDirOk payload.model with
    | .error err => ⟨e.state, .error err, [], e.spawns⟩
    | .ok model_local_dir_str =>
      let has_any_files := match env.dirEntries with
        | some (_ :: _) => true
        | _ => false
      if has_any_files then
        let generation_id := env.generationId
        let msg : Json := .obj [
          ("type", .str "generate"),
          ("generation_id", .str generation_id),
          ("model", .str model_local_dir_str),
          ("prompt", .str payload.prompt),
          ("max_new_tokens", .num (payload.max_new_tokens.getD 256 : Nat)),
          ("temperature", .num (payload.temperature.getD (1/5)))]
        match e.state.stdin with
        | none => ⟨e.state, .error .notRunning, [], e.spawns⟩
        | some _ =>
          if env.writeOk then
            ⟨e.state, .ok ⟨generation_id⟩, [msg], e.spawns⟩
          else
            ⟨e.state, .error (.writeFailed "generate"), [msg], e.spawns⟩
      else
        ⟨e.state, .error (.modelNotLocal model_local_dir_str), [], e.spawns⟩

/-- Models `chat_generate`: ensure the runtime, then run the rest of the
command on that call's outcome. -/
def chat_generate (env : GenerateEnv) (payload : ChatGeneratePayload)
    (s : PythonRuntimeInner) : CmdOutcome ChatGenerateStarted :=
  chat_generate_rest env payload (ensure_python_runtime env.ensureEnv env.pid s)

/-- Models `chat_cancel`: build the cancel message, then under the guarded
region return ok at once when no stdin handle is held (it never calls
`ensure_python_runtime`), else write the message. -/
def chat_cancel (writeOk : Bool) (generation_id : String)
    (s : PythonRuntimeInner) : CmdOutcome Unit :=
  let msg : Json := .obj [("type", .str "cancel"), ("generation_id", .str generation_id)]
  match s.stdin with
  | none => ⟨s, .ok (), [], 0⟩
  | some _ =>
    if writeOk then ⟨s, .ok (), [msg], 0⟩
    else ⟨s, .error (.writeFailed "cancel"), [msg], 0⟩

/-- Payload of the `model_download_start` command. -/
structure ModelDownloadPayload where
  repo_id : String
  revision : Option String
  token : Option String

/-- Successful `model_download_start` response. -/
structure ModelDownloadStarted where
  download_id : String
  local_dir : String
deriving DecidableEq

/-- Environment of one `model_download_start` call. -/
structure DownloadEnv where
  ensureEnv : EnsureEnv
  pid : Nat
  appDataDir : Option String
  createDirOk : Bool
  downloadId : String
  writeOk : Bool

/-- Serialisation of an optional string field (`serde` writes `None` as
JSON null). -/
def optStr : Option String → Json
  | some s => .str s
  | none => .null

/-- The part of `model_download_start` after the `ensure_python_runtime`
call, as a function of that call's outcome `e`: generate the download id,
resolve the local destination directory, build the `download` message and
write it, returning the id and the destination directory string. -/
def model_download_start_rest (env : DownloadEnv) (payload : ModelDownloadPayload)
    (e : CmdOutcome Unit) : CmdOutcome ModelDownloadStarted :=
  match e.result with
  | .error err => ⟨e.state, .error err, [], e.spawns⟩
  | .ok _ =>
    let download_id := env.downloadId
    match compute_model_local_dir env.appDataDir env.createDirOk payload.repo_id with
    | .error err => ⟨e.state, .error err, [], e.spawns⟩
    | .ok local_dir_str =>
      let msg : Json := .obj [
        ("type", .str "download"),
        ("download_id", .str download_id),
        ("repo_id", .str payload.repo_id),
        ("revision", optStr payload.revision),
        ("local_dir", .str local_dir_str),
        ("token", optStr payload.token)]
      match e.state.stdin with
      | none => ⟨e.state, .error .notRunning, [], e.spawns⟩
      | some _ =>
        if env.writeOk then
          ⟨e.state, .ok ⟨download_id, local_dir_str⟩, [msg], e.spawns⟩
        else
          ⟨e.state, .error (.writeFailed "download"), [msg], e.spawns⟩

/-- Models `model_download_start`: ensure the runtime, then run the rest of
the command on that call's outcome. -/
def model_download_start (env : DownloadEnv) (payload : ModelDownloadPayload)
    (s : PythonRuntimeInner) : CmdOutcome ModelDownloadStarted :=
  model_download_start_rest env payload (ensure_python_runtime env.ensureEnv env.pid s)

/-- Models `model_download_cancel`: like `chat_cancel`, ok at once when no
stdin handle is held, never spawning. -/
def model_download_cancel (writeOk : Bool) (download_id : String)
    (s : PythonRuntimeInner) : CmdOutcome Unit :=
  let msg : Json := .obj [("type", .str "download_cancel"), ("download_id", .str download_id)]
  match s.stdin with
  | none => ⟨s, .ok (), [], 0⟩
  | some _ =>
    if writeOk then ⟨s, .ok (), [msg], 0⟩
    else ⟨s, .error (.writeFailed "download_cancel"), [msg], 0⟩

/-- Coordinate space of the anchor rectangle (`tauri::Position` variant);
the code keeps the output in the same space as the anchor. -/
inductive CoordSpace where
  | physical
  | logical
deriving DecidableEq

/-- A point, in the coordinates of the placement computation (exact
rationals stand in for the `f64` arithmetic, which is exact on the division
by two, the subtractions and the max used here). -/
structure Pos where
  x : ℚ
  y : ℚ
deriving DecidableEq

/-- Anchor rectangle of the tray icon (position and size already extracted
from the `tauri::Rect` variants). -/
structure Rect where
  x : ℚ
  y : ℚ
  w : ℚ
  h : ℚ
deriving DecidableEq

/-- Width and height of the window outer size. -/
structure Size2 where
  w : ℚ
  h : ℚ
deriving DecidableEq

/-- Monitor size and scale factor, when `current_monitor()` yields one. -/
structure MonitorInfo where
  width : ℚ
  height : ℚ
  scale : ℚ
deriving DecidableEq

/-- The fixed visual gap, `EDGE_GAP_PX = 20.0`. -/
def EDGE_GAP_PX : ℚ := 20

/-- Vertical-flip test of `show_dropdown_at`: click below the monitor
vertical midpoint; `false` when no monitor is determined. -/
def placementShowAbove (click : Pos) (monitor : Option MonitorInfo) : Bool :=
  match monitor with
  | some m => decide (click.y > m.height / 2)
  | none => false

/-- Scale factor used for the gap: the monitor scale factor, or `1.0` when
no monitor is determined. -/
def placementScale (monitor : Option MonitorInfo) : ℚ :=
  match monitor with
  | some m => m.scale
  | none => 1

/-- The gap converted to the anchor coordinate space: raw pixels when
physical, divided by the scale factor when logical. -/
def placementGap (space : CoordSpace) (monitor : Option MonitorInfo) : ℚ :=
  match space with
  | .physical => EDGE_GAP_PX
  | .logical => EDGE_GAP_PX / placementScale monitor

/-- Models the position computation of `show_dropdown_at` (the final
`set_position` rounding for the physical variant is outside this pure
core): default below/left anchor; when both the window outer size and the
monitor are determined, vertical flip above the anchor if the click is in
the lower half and right-alignment if the click is in the right half; then
the gap is applied away from the anchor (up when shown above, down
otherwise). -/
def show_dropdown_at (space : CoordSpace) (rect : Rect) (click_pos : Pos)
    (window_size : Option Size2) (monitor : Option MonitorInfo) : Pos :=
  let x := rect.x
  let y := rect.y + rect.h
  let show_above := placementShowAbove click_pos monitor
  let gap := placementGap space monitor
  let p : Pos :=
    match window_size, monitor with
    | some ws, some m =>
      let y1 := if show_above then rect.y - ws.h else y
      let x1 := if click_pos.x > m.width / 2 then max (rect.x + rect.w - ws.w / 2 - 10) 0 else x
      ⟨x1, y1⟩
    | _, _ => ⟨x, y⟩
  if show_above then ⟨p.x, p.y - gap⟩ else ⟨p.x, p.y + gap⟩

/-! Helper lemmas shared by the claim theorems. -/

/-- When both handles are already present, `ensure_python_runtime` returns
the state unchanged, ok, with no writes and no spawn. -/
theorem ensure_python_runtime_ready (env : EnsureEnv) (pid : Nat)
    (s : PythonRuntimeInner) (h1 : s.child.isSome) (h2 : s.stdin.isSome) :
    ensure_python_runtime env pid s = ⟨s, .ok (), [], 0⟩ := by
  unfold ensure_python_runtime
  rw [if_pos ⟨h1, h2⟩]

/-- A single `ensure_python_runtime` call either leaves the state unchanged
with no spawn, or spawns exactly once and stores both fresh handles. -/
theorem ensure_python_runtime_cases (env : EnsureEnv) (pid : Nat)
    (s : PythonRuntimeInner) :
    ((ensure_python_runtime env pid s).state = s ∧
      (ensure_python_runtime env pid s).spawns = 0) ∨
    ((ensure_python_runtime env pid s).state = ⟨some ⟨pid⟩, some ⟨pid⟩⟩ ∧
      (ensure_python_runtime env pid s).spawns = 1) := by
  unfold ensure_python_runtime
  by_cases h : s.child.isSome ∧ s.stdin.isSome
  · rw [if_pos h]
    exact Or.inl ⟨rfl, rfl⟩
  · rw [if_neg h]
    cases henv : env.resolvedScript with
    | none => exact Or.inl ⟨rfl, rfl⟩
    | some p =>
      by_cases hs : env.scriptExists <;> by_cases hp : env.spawnOk <;>
        simp [hs, hp]

/-- All characters `sanitize_dir_component` can emit pass `allowedDirChar`. -/
theorem sanitize_map_all (l : List Char) :
    (l.map (fun ch => if allowedDirChar ch then ch else '_')).all allowedDirChar = true := by
  induction l with
  | nil => rfl
  | cons c l ih =>
    simp only [List.map_cons, List.all_cons, Bool.and_eq_true]
    refine ⟨?_, ih⟩
    by_cases h : allowedDirChar c
    · rw [if_pos h]; exact h
    · rw [if_neg h]; decide

/-- C3: for every starting supervisor state (also partially populated ones)
and every outcome of the best-effort shutdown write and kill sub-steps,
`python_runtime_stop` leaves the guarded state `{absent, absent}` and
returns ok; when nothing is running it is a no-op (state already cleared,
ok, nothing written, nothing spawned). -/
theorem python_runtime_stop_clears :
    ∀ (env : StopEnv) (s : PythonRuntimeInner),
      (python_runtime_stop env s).state = ⟨none, none⟩ ∧
      (python_runtime_stop env s).result = .ok () ∧
      python_runtime_stop env ⟨none, none⟩ = ⟨⟨none, none⟩, .ok (), [], 0⟩ := by
  intro env s
  exact ⟨rfl, rfl, rfl⟩

/-- C4: `ensure_python_runtime` is idempotent — with both handles present it
returns immediately without spawning, and two consecutive calls (with any
environments) spawn at most one worker process in total. -/
theorem ensure_python_runtime_idempotent :
    (∀ (env : EnsureEnv) (pid : Nat) (s : PythonRuntimeInner),
        s.child.isSome → s.stdin.isSome →
        ensure_python_runtime env pid s = ⟨s, .ok (), [], 0⟩) ∧
    (∀ (env1 env2 : EnsureEnv) (pid1 pid2 : Nat) (s : PythonRuntimeInner),
        (ensure_python_runtime env1 pid1 s).spawns +
          (ensure_python_runtime env2 pid2
            (ensure_python_runtime env1 pid1 s).state).spawns ≤ 1) := by
  constructor
  · intro env pid s h1 h2
    exact ensure_python_runtime_ready env pid s h1 h2
  · intro env1 env2 pid1 pid2 s
    rcases ensure_python_runtime_cases env1 pid1 s with ⟨hst, hsp⟩ | ⟨hst, hsp⟩
    · rw [hsp, hst]
      rcases ensure_python_runtime_cases env2 pid2 s with ⟨_, hsp2⟩ | ⟨_, hsp2⟩ <;>
        simp [hsp2]
    · rw [hsp, hst]
      rw [ensure_python_runtime_ready env2 pid2 ⟨some ⟨pid1⟩, some ⟨pid1⟩⟩ rfl rfl]
      simp

/-- Witness for C4 at a concrete already-running state. -/
theorem ensure_python_runtime_idempotent_witness :
    ((⟨some ⟨3⟩, some ⟨3⟩⟩ : PythonRuntimeInner).child.isSome = true) ∧
    ((⟨some ⟨3⟩, some ⟨3⟩⟩ : PythonRuntimeInner).stdin.isSome = true) ∧
    ensure_python_runtime ⟨some "cerebro_runner.py", true, true⟩ 7
        ⟨some ⟨3⟩, some ⟨3⟩⟩ =
      ⟨⟨some ⟨3⟩, some ⟨3⟩⟩, .ok (), [], 0⟩ :=
  ⟨rfl, rfl, ensure_python_runtime_idempotent.1 ⟨some "cerebro_runner.py", true, true⟩ 7
    ⟨some ⟨3⟩, some ⟨3⟩⟩ rfl rfl⟩

/-- C7: both cancel commands, called while no stdin handle is held, return
ok with no write, no state change and no spawn; and neither cancel command
ever spawns a worker (they never call `ensure_python_runtime`). -/
theorem cancel_commands_no_spawn :
    (∀ (writeOk : Bool) (generation_id : String) (s : PythonRuntimeInner),
        s.stdin = none →
        chat_cancel writeOk generation_id s = ⟨s, .ok (), [], 0⟩) ∧
    (∀ (writeOk : Bool) (download_id : String) (s : PythonRuntimeInner),
        s.stdin = none →
        model_download_cancel writeOk download_id s = ⟨s, .ok (), [], 0⟩) ∧
    (∀ (writeOk : Bool) (generation_id : String) (s : PythonRuntimeInner),
        (chat_cancel writeOk generation_id s).spawns = 0) ∧
    (∀ (writeOk : Bool) (download_id : String) (s : PythonRuntimeInner),
        (model_download_cancel writeOk download_id s).spawns = 0) := by
  refine ⟨?_, ?_, ?_, ?_⟩
  · intro writeOk gid s h
    unfold chat_cancel
    rw [h]
  · intro writeOk did s h
    unfold model_download_cancel
    rw [h]
  · intro writeOk gid s
    unfold chat_cancel
    cases s.stdin <;> [rfl; (by_cases h : writeOk <;> simp [h])]
  · intro writeOk did s
    unfold model_download_cancel
    cases s.stdin <;> [rfl; (by_cases h : writeOk <;> simp [h])]

/-- Witness for C7 on the idle supervisor state. -/
theorem cancel_commands_no_spawn_witness :
    ((⟨none, none⟩ : PythonRuntimeInner).stdin = none) ∧
    chat_cancel true "gen-1-a" ⟨none, none⟩ = ⟨⟨none, none⟩, .ok (), [], 0⟩ ∧
    model_download_cancel true "gen-2-b" ⟨none, none⟩ = ⟨⟨none, none⟩, .ok (), [], 0⟩ :=
  ⟨rfl, cancel_commands_no_spawn.1 true "gen-1-a" ⟨none, none⟩ rfl,
    cancel_commands_no_spawn.2.1 true "gen-2-b" ⟨none, none⟩ rfl⟩

/-- C8: `sanitize_dir_component` emits only alphanumerics, `-`, `_`, `.`;
it maps `"org/name@v1!"` to `"org_name_v1_"`; the empty sanitized result
falls back to the fixed placeholder `"model"`; and its output is never
empty. -/
theorem sanitize_dir_component_spec :
    (∀ s : String, (sanitize_dir_component s).data.all allowedDirChar = true) ∧
    sanitize_dir_component "org/name@v1!" = "org_name_v1_" ∧
    sanitize_dir_component "" = "model" ∧
    (∀ s : String, (sanitize_dir_component s).isEmpty = false) := by
  refine ⟨?_, by decide, by decide, ?_⟩
  · intro s
    unfold sanitize_dir_component
    by_cases h :
        (String.mk (s.data.map (fun ch => if allowedDirChar ch then ch else '_'))).isEmpty
    · simp only [h, if_pos]
      decide
    · simp only [h, if_neg, Bool.false_eq_true, not_false_iff, ite_false]
      exact sanitize_map_all s.data
  · intro s
    unfold sanitize_dir_component
    by_cases h :
        (String.mk (s.data.map (fun ch => if allowedDirChar ch then ch else '_'))).isEmpty
    · rw [if_pos h]; decide
    · rw [if_neg h]
      exact Bool.eq_false_iff.mpr h

/-- C2: a line that is not valid JSON produces exactly one
`cerebro:chat_error` event whose payload has a null `generation_id` and the
fixed message `"Invalid runner JSON"`, and the reader loop keeps going, so
every line before and after it is still routed; a line that parses but whose
`type` is unrecognised or a control type produces no event. -/
theorem router_malformed_line :
    (∀ pre post : List ParsedLine,
        readerLoop (pre ++ none :: post) =
          readerLoop pre ++ invalidJsonEvent :: readerLoop post) ∧
    invalidJsonEvent.channel = "cerebro:chat_error" ∧
    invalidJsonEvent.payload.get "generation_id" = some .null ∧
    invalidJsonEvent.payload.get "message" = some (.str "Invalid runner JSON") ∧
    (∀ v : Json,
        msgTypeOf v ∉ ["chat_token", "done", "error", "download_started",
          "download_progress", "download_done", "download_error"] →
        routeLine (some v) = none) := by
  refine ⟨?_, rfl, rfl, rfl, ?_⟩
  · intro pre post
    simp [readerLoop, List.filterMap_append, List.filterMap_cons, routeLine]
  · intro v h
    simp only [List.mem_cons, List.not_mem_nil, or_false, not_or] at h
    obtain ⟨h1, h2, h3, h4, h5, h6, h7⟩ := h
    simp [routeLine, routeChannel, h1, h2, h3, h4, h5, h6, h7]

/-- Witness for C2: a control `ready` line is dropped with no event. -/
theorem router_malformed_line_witness :
    msgTypeOf (.obj [("type", .str "ready")]) ∉
      ["chat_token", "done", "error", "download_started",
        "download_progress", "download_done", "download_error"] ∧
    routeLine (some (.obj [("type", .str "ready")])) = none := by
  refine ⟨by decide, router_malformed_line.2.2.2.2 (.obj [("type", .str "ready")]) (by decide)⟩

/-- C1 counterexample: with the anchor at `{100, 10, 20, 20}`, a click at
`(500, 700)`, no window outer size but a determined `1000x800` monitor at
scale 1, the flips are skipped but the gap is applied upward (the click is
in the lower half), giving `y = 10`, not the claimed
`anchor.y + anchor.h + gap = 50`. -/
theorem show_dropdown_at_missing_size_counterexample :
    show_dropdown_at .physical ⟨100, 10, 20, 20⟩ ⟨500, 700⟩ none
        (some ⟨1000, 800, 1⟩) = ⟨100, 10⟩ ∧
    show_dropdown_at .physical ⟨100, 10, 20, 20⟩ ⟨500, 700⟩ none
        (some ⟨1000, 800, 1⟩) ≠ ⟨100, 10 + 20 + 20⟩ := by
  constructor <;>
    norm_num [show_dropdown_at, placementShowAbove, placementGap, placementScale,
      EDGE_GAP_PX]

/-- C1 amended: whenever the window outer size or the monitor cannot be
determined, both flips are skipped and the result is the default below/left
anchor position with the vertical gap applied away from the anchor in the
direction of the vertical-flip test — downward whenever the monitor is
undetermined (the test is then forced false), but upward when only the
window size is missing and the click is in the lower half of the determined
monitor. -/
theorem show_dropdown_at_missing_info (space : CoordSpace) (rect : Rect)
    (click_pos : Pos) (window_size : Option Size2) (monitor : Option MonitorInfo)
    (h : window_size = none ∨ monitor = none) :
    show_dropdown_at space rect click_pos window_size monitor =
      if placementShowAbove click_pos monitor then
        ⟨rect.x, rect.y + rect.h - placementGap space monitor⟩
      else
        ⟨rect.x, rect.y + rect.h + placementGap space monitor⟩ := by
  rcases h with h | h <;> subst h
  · cases monitor with
    | none => simp [show_dropdown_at, placementShowAbove]
    | some m =>
      by_cases hsa : placementShowAbove click_pos (some m) <;>
        simp [show_dropdown_at, hsa]
  · cases window_size <;> simp [show_dropdown_at, placementShowAbove]

/-- Witness for the amended C1 at the counterexample input. -/
theorem show_dropdown_at_missing_info_witness :
    ((none : Option Size2) = none ∨
      (some ⟨1000, 800, 1⟩ : Option MonitorInfo) = none) ∧
    show_dropdown_at .physical ⟨100, 10, 20, 20⟩ ⟨500, 700⟩ none
        (some ⟨1000, 800, 1⟩) =
      (if placementShowAbove ⟨500, 700⟩ (some ⟨1000, 800, 1⟩) then
        ⟨100, 10 + 20 - placementGap .physical (some ⟨1000, 800, 1⟩)⟩
      else
        ⟨100, 10 + 20 + placementGap .physical (some ⟨1000, 800, 1⟩)⟩) :=
  ⟨Or.inl rfl,
    show_dropdown_at_missing_info .physical ⟨100, 10, 20, 20⟩ ⟨500, 700⟩ none
      (some ⟨1000, 800, 1⟩) (Or.inl rfl)⟩

/-- C6: the three placement scenarios of the spec, with anchor
`{100, 10, 20, 20}`, window outer size `300x400`, monitor `1000x800` at
scale 1 and gap 20: a click at `(500, 700)` is shown above and left-aligned
at `(100, -410)`; a click at `(900, 100)` is shown below and right-aligned
at `(0, 50)`; a click at `(500, 100)` takes the default `(100, 50)`. -/
theorem show_dropdown_at_scenarios :
    show_dropdown_at .physical ⟨100, 10, 20, 20⟩ ⟨500, 700⟩ (some ⟨300, 400⟩)
        (some ⟨1000, 800, 1⟩) = ⟨100, -410⟩ ∧
    show_dropdown_at .physical ⟨100, 10, 20, 20⟩ ⟨900, 100⟩ (some ⟨300, 400⟩)
        (some ⟨1000, 800, 1⟩) = ⟨0, 50⟩ ∧
    show_dropdown_at .physical ⟨100, 10, 20, 20⟩ ⟨500, 100⟩ (some ⟨300, 400⟩)
        (some ⟨1000, 800, 1⟩) = ⟨100, 50⟩ := by
  refine ⟨?_, ?_, ?_⟩ <;>
    norm_num [show_dropdown_at, placementShowAbove, placementGap, placementScale,
      EDGE_GAP_PX]

/-- C5: when the resolved model directory does not exist (`read_dir` fails)
or exists but has no entries, `chat_generate` fails synchronously with the
model-not-local error naming that directory, and writes nothing to the
worker stdin. -/
theorem chat_generate_model_not_local (env : GenerateEnv)
    (payload : ChatGeneratePayload) (s : PythonRuntimeInner) (dir : String)
    (hens : (ensure_python_runtime env.ensureEnv env.pid s).result = .ok ())
    (hdir : compute_model_local_dir env.appDataDir env.createDirOk payload.model = .ok dir)
    (hempty : env.dirEntries = none ∨ env.dirEntries = some []) :
    (chat_generate env payload s).result = .error (.modelNotLocal dir) ∧
    (chat_generate env payload s).writes = [] := by
  unfold chat_generate chat_generate_rest
  rw [hens, hdir]
  rcases hempty with he | he <;> rw [he] <;> exact ⟨rfl, rfl⟩

/-- Witness for C5: a fresh runtime, a resolvable model directory that does
not exist, and the resulting synchronous failure with no write. -/
theorem chat_generate_model_not_local_witness :
    (ensure_python_runtime ⟨some "cerebro_runner.py", true, true⟩ 1
        ⟨none, none⟩).result = .ok () ∧
    compute_model_local_dir (some "/data") true "repo" = .ok "/data/models/repo" ∧
    ((⟨⟨some "cerebro_runner.py", true, true⟩, 1, some "/data", true, none,
        "gen-42-7", true⟩ : GenerateEnv).dirEntries = none ∨
      (⟨⟨some "cerebro_runner.py", true, true⟩, 1, some "/data", true, none,
        "gen-42-7", true⟩ : GenerateEnv).dirEntries = some []) ∧
    (chat_generate ⟨⟨some "cerebro_runner.py", true, true⟩, 1, some "/data", true,
        none, "gen-42-7", true⟩ ⟨"repo", "hi", none, none⟩ ⟨none, none⟩).result =
      .error (.modelNotLocal "/data/models/repo") ∧
    (chat_generate ⟨⟨some "cerebro_runner.py", true, true⟩, 1, some "/data", true,
        none, "gen-42-7", true⟩ ⟨"repo", "hi", none, none⟩ ⟨none, none⟩).writes = [] := by
  refine ⟨rfl, rfl, Or.inl rfl, ?_⟩
  exact chat_generate_model_not_local _ ⟨"repo", "hi", none, none⟩ ⟨none, none⟩
    "/data/models/repo" rfl rfl (Or.inl rfl)

/-- C9: every successful `chat_generate` call writes exactly one message,
the JSON object with exactly the fields `type`, `generation_id`, `model`,
`prompt`, `max_new_tokens`, `temperature`, where `model` is the resolved
local directory string, the defaults are 256 tokens and temperature 0.2,
and the `generation_id` field is the one returned to the caller. -/
theorem chat_generate_message_shape (env : GenerateEnv)
    (payload : ChatGeneratePayload) (s : PythonRuntimeInner)
    (st : ChatGenerateStarted) (dir : String)
    (hok : (chat_generate env payload s).result = .ok st)
    (hdir : compute_model_local_dir env.appDataDir env.createDirOk payload.model = .ok dir) :
    (chat_generate env payload s).writes =
      [Json.obj [
        ("type", .str "generate"),
        ("generation_id", .str st.generation_id),
        ("model", .str dir),
        ("prompt", .str payload.prompt),
        ("max_new_tokens", .num (payload.max_new_tokens.getD 256 : Nat)),
        ("temperature", .num (payload.temperature.getD (1/5)))]] ∧
    st.generation_id = env.generationId := by
  unfold chat_generate chat_generate_rest at hok ⊢
  rw [hdir] at hok ⊢
  cases hens : (ensure_python_runtime env.ensureEnv env.pid s).result with
  | error err => rw [hens] at hok; simp at hok
  | ok u =>
    rw [hens] at hok
    cases hent : env.dirEntries with
    | none => rw [hent] at hok; simp at hok
    | some l =>
      rw [hent] at hok
      cases l with
      | nil => simp at hok
      | cons a as =>
        cases hstd : (ensure_python_runtime env.ensureEnv env.pid s).state.stdin with
        | none => rw [hstd] at hok; simp at hok
        | some sh =>
          rw [hstd] at hok
          by_cases hw : env.writeOk
          · rw [hw] at hok
            simp at hok
            subst hok
            rw [hw]
            exact ⟨rfl, rfl⟩
          · simp [hw] at hok

/-- Witness for C9: a successful generate call with omitted optionals. -/
theorem chat_generate_message_shape_witness :
    (chat_generate ⟨⟨some "cerebro_runner.py", true, true⟩, 1, some "/data", true,
        some ["config.json"], "gen-42-7", true⟩ ⟨"repo", "hi", none, none⟩
        ⟨none, none⟩).result = .ok ⟨"gen-42-7"⟩ ∧
    compute_model_local_dir (some "/data") true "repo" = .ok "/data/models/repo" ∧
    (chat_generate ⟨⟨some "cerebro_runner.py", true, true⟩, 1, some "/data", true,
        some ["config.json"], "gen-42-7", true⟩ ⟨"repo", "hi", none, none⟩
        ⟨none, none⟩).writes =
      [Json.obj [
        ("type", .str "generate"),
        ("generation_id", .str "gen-42-7"),
        ("model", .str "/data/models/repo"),
        ("prompt", .str "hi"),
        ("max_new_tokens", .num ((none : Option Nat).getD 256 : Nat)),
        ("temperature", .num ((none : Option ℚ).getD (1/5)))]] ∧
    ("gen-42-7" : String) = "gen-42-7" := by
  refine ⟨rfl, rfl, ?_⟩
  exact chat_generate_message_shape _ ⟨"repo", "hi", none, none⟩ ⟨none, none⟩
    ⟨"gen-42-7"⟩ "/data/models/repo" rfl rfl

/-- C10: every successful `model_download_start` call writes exactly one
message, and the `local_dir` field of that message is the very string
returned to the caller, so caller and worker agree on the destination. -/
theorem model_download_start_dir_agreement (env : DownloadEnv)
    (payload : ModelDownloadPayload) (s : PythonRuntimeInner)
    (st : ModelDownloadStarted)
    (hok : (model_download_start env payload s).result = .ok st) :
    ∃ msg : Json, (model_download_start env payload s).writes = [msg] ∧
      msg.get "local_dir" = some (.str st.local_dir) := by
  unfold model_download_start model_download_start_rest at hok ⊢
  cases hens : (ensure_python_runtime env.ensureEnv env.pid s).result with
  | error err => rw [hens] at hok; simp at hok
  | ok u =>
    rw [hens] at hok
    cases hdir : compute_model_local_dir env.appDataDir env.createDirOk payload.repo_id with
    | error err => rw [hdir] at hok; simp at hok
    | ok d =>
      rw [hdir] at hok
      cases hstd : (ensure_python_runtime env.ensureEnv env.pid s).state.stdin with
      | none => rw [hstd] at hok; simp at hok
      | some sh =>
        rw [hstd] at hok
        by_cases hw : env.writeOk
        · rw [hw] at hok
          simp at hok
          subst hok
          rw [hw]
          exact ⟨_, rfl, rfl⟩
        · simp [hw] at hok

/-- Witness for C10: a successful download start. -/
theorem model_download_start_dir_agreement_witness :
    (model_download_start ⟨⟨some "cerebro_runner.py", true, true⟩, 1, some "/data",
        true, "gen-9-f", true⟩ ⟨"org/repo", none, none⟩ ⟨none, none⟩).result =
      .ok ⟨"gen-9-f", "/data/models/org_repo"⟩ ∧
    ∃ msg : Json,
      (model_download_start ⟨⟨some "cerebro_runner.py", true, true⟩, 1, some "/data",
          true, "gen-9-f", true⟩ ⟨"org/repo", none, none⟩ ⟨none, none⟩).writes = [msg] ∧
      msg.get "local_dir" = some (.str "/data/models/org_repo") := by
  refine ⟨rfl, ?_⟩
  exact model_download_start_dir_agreement _ ⟨"org/repo", none, none⟩ ⟨none, none⟩
    ⟨"gen-9-f", "/data/models/org_repo"⟩ rfl

end Cerebro
